import Mathlib

/-!
Verification of the generation-window computation and orchestration in
`src/Chapter03/notebook.ipynb` (the `generate` function).

The timing computation is embedded over `ℚ` (exact arithmetic): tempo,
times and the epsilon boundary adjustment are rationals, and the Python
`math.ceil` becomes `Int.ceil`.  The orchestration around the pure window
computation (tempo resolution, generation-service call, MIDI/plot
persistence) is embedded as a function returning the list of observable
events together with the result, with the generation service passed in as
a function parameter.
-/

namespace Chapter03

/-- `seconds_per_step = 60.0 / qpm / steps_per_quarter` (notebook, timing
computation in `generate`). -/
def seconds_per_step (qpm steps_per_quarter : ℚ) : ℚ :=
  60 / qpm / steps_per_quarter

/-- `primer_sequence_length_steps = math.ceil(primer_sequence.total_time /
seconds_per_step)`. -/
def primer_sequence_length_steps (qpm steps_per_quarter primer_total_time : ℚ) : ℤ :=
  ⌈primer_total_time / seconds_per_step qpm steps_per_quarter⌉

/-- `primer_sequence_length_time = primer_sequence_length_steps *
seconds_per_step`. -/
def primer_sequence_length_time (qpm steps_per_quarter primer_total_time : ℚ) : ℚ :=
  (primer_sequence_length_steps qpm steps_per_quarter primer_total_time : ℚ)
    * seconds_per_step qpm steps_per_quarter

/-- `primer_end_adjust = (0.00001 if primer_sequence_length_time > 0 else 0)`. -/
def primer_end_adjust (qpm steps_per_quarter primer_total_time : ℚ) : ℚ :=
  if 0 < primer_sequence_length_time qpm steps_per_quarter primer_total_time then
    1 / 100000
  else 0

/-- `primer_start_time = 0`. -/
def primer_start_time : ℚ := 0

/-- `primer_end_time = primer_start_time + primer_sequence_length_time -
primer_end_adjust`. -/
def primer_end_time (qpm steps_per_quarter primer_total_time : ℚ) : ℚ :=
  primer_start_time
    + primer_sequence_length_time qpm steps_per_quarter primer_total_time
    - primer_end_adjust qpm steps_per_quarter primer_total_time

/-- `generation_length_steps = total_length_steps -
primer_sequence_length_steps`. -/
def generation_length_steps (qpm steps_per_quarter primer_total_time : ℚ)
    (total_length_steps : ℤ) : ℤ :=
  total_length_steps - primer_sequence_length_steps qpm steps_per_quarter primer_total_time

/-- `generation_length_time = generation_length_steps * seconds_per_step`. -/
def generation_length_time (qpm steps_per_quarter primer_total_time : ℚ)
    (total_length_steps : ℤ) : ℚ :=
  (generation_length_steps qpm steps_per_quarter primer_total_time total_length_steps : ℚ)
    * seconds_per_step qpm steps_per_quarter

/-- `generation_start_time = primer_end_time`. -/
def generation_start_time (qpm steps_per_quarter primer_total_time : ℚ) : ℚ :=
  primer_end_time qpm steps_per_quarter primer_total_time

/-- `generation_end_time = generation_start_time + generation_length_time +
primer_end_adjust`. -/
def generation_end_time (qpm steps_per_quarter primer_total_time : ℚ)
    (total_length_steps : ℤ) : ℚ :=
  generation_start_time qpm steps_per_quarter primer_total_time
    + generation_length_time qpm steps_per_quarter primer_total_time total_length_steps
    + primer_end_adjust qpm steps_per_quarter primer_total_time

/-- The error message raised when `generation_length_steps <= 0`, built
exactly as the Python string concatenation does, with `str()` of both the
requested total length and the computed primer length. -/
def invalid_length_message (total_length_steps primer_length_steps : ℤ) : String :=
  "Total length in steps too small "
    ++ "(" ++ toString total_length_steps ++ ")"
    ++ ", needs to be at least one bar bigger than primer "
    ++ "(" ++ toString primer_length_steps ++ ")"

/-- The error message raised when the primer declares several tempos. -/
def multiple_tempos_message : String := "No support for multiple tempos"

/-- All values derived by the timing computation in `generate`, from
`seconds_per_step` down to `generation_end_time`. -/
structure Window where
  seconds_per_step : ℚ
  primer_sequence_length_steps : ℤ
  primer_sequence_length_time : ℚ
  primer_end_adjust : ℚ
  primer_start_time : ℚ
  primer_end_time : ℚ
  generation_length_steps : ℤ
  generation_length_time : ℚ
  generation_start_time : ℚ
  generation_end_time : ℚ
  deriving DecidableEq, Repr

/-- The timing computation of `generate` as one function: computes every
derived value and raises (returns `.error`) when the generation length in
steps is not positive, with the message the notebook builds. -/
def computeWindow (qpm steps_per_quarter primer_total_time : ℚ)
    (total_length_steps : ℤ) : Except String Window :=
  if generation_length_steps qpm steps_per_quarter primer_total_time total_length_steps ≤ 0 then
    .error (invalid_length_message total_length_steps
      (primer_sequence_length_steps qpm steps_per_quarter primer_total_time))
  else
    .ok
      { seconds_per_step := seconds_per_step qpm steps_per_quarter
        primer_sequence_length_steps :=
          primer_sequence_length_steps qpm steps_per_quarter primer_total_time
        primer_sequence_length_time :=
          primer_sequence_length_time qpm steps_per_quarter primer_total_time
        primer_end_adjust := primer_end_adjust qpm steps_per_quarter primer_total_time
        primer_start_time := primer_start_time
        primer_end_time := primer_end_time qpm steps_per_quarter primer_total_time
        generation_length_steps :=
          generation_length_steps qpm steps_per_quarter primer_total_time total_length_steps
        generation_length_time :=
          generation_length_time qpm steps_per_quarter primer_total_time total_length_steps
        generation_start_time := generation_start_time qpm steps_per_quarter primer_total_time
        generation_end_time :=
          generation_end_time qpm steps_per_quarter primer_total_time total_length_steps }

/-- The primer note sequence, reduced to what `generate` reads from it:
its total time and the list of declared tempo values (qpm each). -/
structure Primer where
  total_time : ℚ
  tempos : List ℚ
  deriving DecidableEq, Repr

/-- Tempo resolution in `generate`: if the primer declares tempos, more
than one raises, otherwise the first declared tempo replaces the
caller-supplied `qpm`; with no declared tempo the caller-supplied `qpm`
is kept. -/
def resolveQpm (tempos : List ℚ) (qpm : ℚ) : Except String ℚ :=
  match tempos with
  | [] => .ok qpm
  | [t] => .ok t
  | _ :: _ :: _ => .error multiple_tempos_message

/-- Observable side effects of `generate`, in order: the single call to
the generation service with its section bounds, the MIDI file write and
the plot render (shown or saved), each carrying the sequence handed to
the sink. -/
inductive Event (α : Type) where
  | serviceCall (start_time end_time : ℚ)
  | midiWrite (sequence : α)
  | plotShow (sequence : α)
  | plotSave (sequence : α)
  deriving DecidableEq, Repr

/-- Whether an event is the generation-service call. -/
def Event.isServiceCall {α : Type} : Event α → Bool
  | .serviceCall _ _ => true
  | _ => false

/-- The `generate` orchestration: resolve the tempo, compute the window,
call the generation service on the generation section, persist the MIDI
file and the plot, and return the generated sequence.  The generation
service is the parameter `service`, mapping the section bounds to the
generated sequence; the returned list records the observable events in
program order, and a raised exception short-circuits with no further
event. -/
def generateRun {α : Type} (service : ℚ → ℚ → α)
    (steps_per_quarter : ℚ) (primer : Primer) (qpm : ℚ)
    (total_length_steps : ℤ) (show_plot : Bool) :
    List (Event α) × Except String α :=
  match resolveQpm primer.tempos qpm with
  | .error e => ([], .error e)
  | .ok q =>
    match computeWindow q steps_per_quarter primer.total_time total_length_steps with
    | .error e => ([], .error e)
    | .ok w =>
      let sequence := service w.generation_start_time w.generation_end_time
      ([Event.serviceCall w.generation_start_time w.generation_end_time,
        Event.midiWrite sequence,
        if show_plot then Event.plotShow sequence else Event.plotSave sequence],
       .ok sequence)

/-- Helper: the step duration is positive when `qpm` and
`steps_per_quarter` are. -/
theorem seconds_per_step_pos {qpm s : ℚ} (hq : 0 < qpm) (hs : 0 < s) :
    0 < seconds_per_step qpm s := by
  unfold seconds_per_step
  positivity

/-- Helper: a positive primer makes the rounded primer length positive. -/
theorem primer_sequence_length_time_pos {qpm s pt : ℚ} (hq : 0 < qpm) (hs : 0 < s)
    (hpt : 0 < pt) :
    0 < primer_sequence_length_time qpm s pt := by
  have hsd := seconds_per_step_pos hq hs
  have hsteps : 0 < primer_sequence_length_steps qpm s pt :=
    Int.ceil_pos.mpr (div_pos hpt hsd)
  exact mul_pos (by exact_mod_cast hsteps) hsd

/-- Helper: a successful `computeWindow` returns exactly the record of the
derived timing values. -/
theorem computeWindow_ok_fields {qpm s pt : ℚ} {tls : ℤ} {w : Window}
    (h : computeWindow qpm s pt tls = Except.ok w) :
    w = { seconds_per_step := seconds_per_step qpm s
          primer_sequence_length_steps := primer_sequence_length_steps qpm s pt
          primer_sequence_length_time := primer_sequence_length_time qpm s pt
          primer_end_adjust := primer_end_adjust qpm s pt
          primer_start_time := primer_start_time
          primer_end_time := primer_end_time qpm s pt
          generation_length_steps := generation_length_steps qpm s pt tls
          generation_length_time := generation_length_time qpm s pt tls
          generation_start_time := generation_start_time qpm s pt
          generation_end_time := generation_end_time qpm s pt tls } := by
  unfold computeWindow at h
  split at h
  · exact absurd h (by simp)
  · exact (Except.ok.inj h).symm

/-- Helper: when the generation length in steps is not positive,
`computeWindow` raises with the notebook's message. -/
theorem computeWindow_error_of_nonpos {qpm s pt : ℚ} {tls : ℤ}
    (h : generation_length_steps qpm s pt tls ≤ 0) :
    computeWindow qpm s pt tls =
      Except.error (invalid_length_message tls (primer_sequence_length_steps qpm s pt)) := by
  unfold computeWindow
  rw [if_pos h]

/-- C1: for every qpm > 0 and integer steps_per_quarter > 0 the window
computation uses step_duration = 60 / qpm / steps_per_quarter exactly, and
for every primer_total_time >= 0 it sets primer_length_steps =
ceil(primer_total_time / step_duration); the window returned on success
carries exactly these values. -/
theorem step_duration_exact (qpm pt : ℚ) (spq : ℕ) (tls : ℤ)
    (hq : 0 < qpm) (hs : 0 < spq) (hpt : 0 ≤ pt) :
    seconds_per_step qpm spq = 60 / qpm / spq ∧
    primer_sequence_length_steps qpm spq pt = ⌈pt / (60 / qpm / spq)⌉ ∧
    ∀ w, computeWindow qpm spq pt tls = Except.ok w →
      w.seconds_per_step = 60 / qpm / spq ∧
      w.primer_sequence_length_steps = ⌈pt / (60 / qpm / spq)⌉ := by
  refine ⟨rfl, rfl, fun w hw => ?_⟩
  rw [computeWindow_ok_fields hw]
  exact ⟨rfl, rfl⟩

/-- Witness for C1 at qpm = 120, steps_per_quarter = 4,
primer_total_time = 3/2, total_length_steps = 32. -/
theorem step_duration_exact_witness :
    Chapter03.seconds_per_step 120 4 = 60 / 120 / 4 ∧
    Chapter03.primer_sequence_length_steps 120 4 (3/2) = ⌈(3/2 : ℚ) / (60 / 120 / 4)⌉ ∧
    ∀ w, Chapter03.computeWindow 120 4 (3/2) 32 = Except.ok w →
      w.seconds_per_step = 60 / 120 / 4 ∧
      w.primer_sequence_length_steps = ⌈(3/2 : ℚ) / (60 / 120 / 4)⌉ := by
  have h := Chapter03.step_duration_exact 120 (3/2) 4 32 (by norm_num) (by norm_num)
    (by norm_num)
  exact_mod_cast h

/-- C2: epsilon is 1e-5 exactly when the primer is nonempty and 0
otherwise, primer_start = 0, primer_end = primer_length_time − epsilon,
gen_start = primer_end, gen_end = gen_start + gen_length_time + epsilon,
hence gen_end − gen_start = gen_length_time + epsilon. -/
theorem epsilon_boundary_rules (qpm pt : ℚ) (spq : ℕ) (tls : ℤ)
    (hq : 0 < qpm) (hs : 0 < spq) (hpt : 0 ≤ pt) :
    (0 < pt → primer_end_adjust qpm spq pt = 1 / 100000) ∧
    (pt = 0 → primer_end_adjust qpm spq pt = 0) ∧
    primer_start_time = 0 ∧
    primer_end_time qpm spq pt
      = primer_sequence_length_time qpm spq pt - primer_end_adjust qpm spq pt ∧
    generation_start_time qpm spq pt = primer_end_time qpm spq pt ∧
    generation_end_time qpm spq pt tls
      = generation_start_time qpm spq pt
        + generation_length_time qpm spq pt tls
        + primer_end_adjust qpm spq pt ∧
    generation_end_time qpm spq pt tls - generation_start_time qpm spq pt
      = generation_length_time qpm spq pt tls + primer_end_adjust qpm spq pt := by
  have hsq : (0 : ℚ) < spq := by exact_mod_cast hs
  refine ⟨fun hpt0 => ?_, fun hpt0 => ?_, rfl, ?_, rfl, ?_, ?_⟩
  · unfold primer_end_adjust
    rw [if_pos (primer_sequence_length_time_pos hq hsq hpt0)]
  · unfold primer_end_adjust primer_sequence_length_time primer_sequence_length_steps
    subst hpt0
    rw [zero_div, Int.ceil_zero]
    norm_num
  · unfold primer_end_time primer_start_time
    ring
  · rfl
  · unfold generation_end_time
    ring

/-- Witness for C2 at qpm = 120, steps_per_quarter = 4,
primer_total_time = 3/2, total_length_steps = 32. -/
theorem epsilon_boundary_rules_witness :
    Chapter03.primer_end_adjust 120 4 (3/2) = 1 / 100000 :=
  (Chapter03.epsilon_boundary_rules 120 (3/2) 4 32 (by norm_num) (by norm_num)
    (by norm_num)).1 (by norm_num)

/-- C3: when the requested total length does not exceed the primer length
in steps, the run fails with the invalid-length error whose message
contains both quantities, and the generation service is never invoked. -/
theorem invalid_length_aborts_before_generation {α : Type} (service : ℚ → ℚ → α)
    (spq : ℚ) (primer : Primer) (qpm q : ℚ) (tls : ℤ) (show_plot : Bool)
    (hresolve : resolveQpm primer.tempos qpm = Except.ok q)
    (hlen : generation_length_steps q spq primer.total_time tls ≤ 0) :
    generateRun service spq primer qpm tls show_plot
      = ([], Except.error
          (invalid_length_message tls
            (primer_sequence_length_steps q spq primer.total_time))) ∧
    (∃ s₁ s₂ s₃ : String,
      invalid_length_message tls (primer_sequence_length_steps q spq primer.total_time)
        = s₁ ++ toString tls ++ s₂
            ++ toString (primer_sequence_length_steps q spq primer.total_time) ++ s₃) ∧
    ∀ e ∈ (generateRun service spq primer qpm tls show_plot).1,
      e.isServiceCall = false := by
  have hrun : generateRun service spq primer qpm tls show_plot
      = ([], Except.error
          (invalid_length_message tls
            (primer_sequence_length_steps q spq primer.total_time))) := by
    unfold generateRun
    rw [hresolve]
    dsimp only
    rw [computeWindow_error_of_nonpos hlen]
  refine ⟨hrun, ?_, ?_⟩
  · refine ⟨"Total length in steps too small " ++ "(",
      ")" ++ ", needs to be at least one bar bigger than primer " ++ "(", ")", ?_⟩
    unfold invalid_length_message
    simp [String.append_assoc]
  · intro e he
    rw [hrun] at he
    simp at he

/-- Witness for C3: primer of 12 steps with total_length_steps = 12. -/
theorem invalid_length_aborts_before_generation_witness :
    Chapter03.generateRun (fun _ _ => (0 : ℕ)) 4 ⟨3/2, []⟩ 120 12 false
      = ([], Except.error
          (Chapter03.invalid_length_message 12
            (Chapter03.primer_sequence_length_steps 120 4 (3/2)))) ∧
    (∃ s₁ s₂ s₃ : String,
      Chapter03.invalid_length_message 12 (Chapter03.primer_sequence_length_steps 120 4 (3/2))
        = s₁ ++ toString (12 : ℤ) ++ s₂
            ++ toString (Chapter03.primer_sequence_length_steps 120 4 (3/2)) ++ s₃) ∧
    ∀ e ∈ (Chapter03.generateRun (fun _ _ => (0 : ℕ)) 4 ⟨3/2, []⟩ 120 12 false).1,
      e.isServiceCall = false :=
  Chapter03.invalid_length_aborts_before_generation (fun _ _ => (0 : ℕ)) 4 ⟨3/2, []⟩
    120 120 12 false rfl
    (by
      unfold Chapter03.generation_length_steps Chapter03.primer_sequence_length_steps
        Chapter03.seconds_per_step
      norm_num)

/-- C4: for valid inputs the epsilon subtracted at the primer boundary
cancels against the one added at the generation end, so the generation
ends exactly at total_length_steps * step_duration. -/
theorem generation_ends_on_step_boundary (qpm pt : ℚ) (spq : ℕ) (tls : ℤ)
    (hq : 0 < qpm) (hs : 0 < spq) (hpt : 0 ≤ pt)
    (hlen : primer_sequence_length_steps qpm spq pt < tls) :
    generation_end_time qpm spq pt tls = (tls : ℚ) * seconds_per_step qpm spq := by
  unfold generation_end_time generation_start_time primer_end_time
    generation_length_time generation_length_steps primer_sequence_length_time
    primer_start_time
  push_cast
  ring

/-- Witness for C4 at qpm = 120, steps_per_quarter = 4,
primer_total_time = 3/2, total_length_steps = 32. -/
theorem generation_ends_on_step_boundary_witness :
    Chapter03.generation_end_time 120 4 (3/2) 32
      = (32 : ℚ) * Chapter03.seconds_per_step 120 4 := by
  have h := Chapter03.generation_ends_on_step_boundary 120 (3/2) 4 32 (by norm_num)
    (by norm_num) (by norm_num)
    (by
      unfold Chapter03.primer_sequence_length_steps Chapter03.seconds_per_step
      norm_num)
  exact_mod_cast h

/-- C5: tempo resolution: more than one declared tempo raises, exactly one
declared tempo replaces the caller-supplied qpm, and with none declared
the caller-supplied qpm is kept. -/
theorem tempo_resolution_cases (tempos : List ℚ) (qpm : ℚ) :
    (1 < tempos.length →
      resolveQpm tempos qpm = Except.error multiple_tempos_message) ∧
    (∀ t, tempos = [t] → resolveQpm tempos qpm = Except.ok t) ∧
    (tempos = [] → resolveQpm tempos qpm = Except.ok qpm) := by
  refine ⟨fun h => ?_, fun t ht => ?_, fun h0 => ?_⟩
  · rcases tempos with _ | ⟨a, _ | ⟨b, rest⟩⟩
    · simp at h
    · simp at h
    · rfl
  · subst ht; rfl
  · subst h0; rfl

/-- Witness for C5 on the tempo lists [100, 200], [100] and []. -/
theorem tempo_resolution_cases_witness :
    Chapter03.resolveQpm [100, 200] 50
        = Except.error Chapter03.multiple_tempos_message ∧
    Chapter03.resolveQpm [100] 50 = Except.ok 100 ∧
    Chapter03.resolveQpm [] 50 = Except.ok 50 :=
  ⟨(Chapter03.tempo_resolution_cases [100, 200] 50).1 (by norm_num),
   (Chapter03.tempo_resolution_cases [100] 50).2.1 100 rfl,
   (Chapter03.tempo_resolution_cases [] 50).2.2 rfl⟩

/-- Helper: an empty primer rounds to zero steps. -/
theorem primer_zero_steps (qpm spq : ℚ) :
    primer_sequence_length_steps qpm spq 0 = 0 := by
  unfold primer_sequence_length_steps
  rw [zero_div, Int.ceil_zero]

/-- Helper: an empty primer has zero rounded length. -/
theorem primer_zero_time (qpm spq : ℚ) :
    primer_sequence_length_time qpm spq 0 = 0 := by
  unfold primer_sequence_length_time
  rw [primer_zero_steps]
  norm_num

/-- Helper: an empty primer gets no epsilon adjustment. -/
theorem primer_zero_adjust (qpm spq : ℚ) :
    primer_end_adjust qpm spq 0 = 0 := by
  unfold primer_end_adjust
  rw [primer_zero_time]
  norm_num

/-- Helper: an empty primer ends at time 0. -/
theorem primer_zero_end (qpm spq : ℚ) :
    primer_end_time qpm spq 0 = 0 := by
  unfold primer_end_time primer_start_time
  rw [primer_zero_time, primer_zero_adjust]
  norm_num

/-- C6: with an empty primer the primer length is 0 steps, the primer ends
at 0 and no epsilon is applied; concretely with qpm = 120,
steps_per_quarter = 4 and total_length_steps = 16 the generation is 16
steps and ends at 2.0. -/
theorem empty_primer_no_gap (qpm spq : ℚ) :
    primer_sequence_length_steps qpm spq 0 = 0 ∧
    primer_end_time qpm spq 0 = 0 ∧
    primer_end_adjust qpm spq 0 = 0 ∧
    generation_length_steps 120 4 0 16 = 16 ∧
    generation_end_time 120 4 0 16 = 16 * 0.125 := by
  refine ⟨primer_zero_steps qpm spq, primer_zero_end qpm spq,
    primer_zero_adjust qpm spq, ?_, ?_⟩
  · unfold generation_length_steps
    rw [primer_zero_steps]
    norm_num
  · unfold generation_end_time generation_length_time generation_length_steps
      generation_start_time seconds_per_step
    rw [primer_zero_steps, primer_zero_end, primer_zero_adjust]
    norm_num

/-- C7: the full window computation on qpm = 120, steps_per_quarter = 4,
primer_total_time = 1.5, total_length_steps = 32 yields step_duration =
0.125, primer_length_steps = 12, primer_length_time = 1.5, epsilon = 1e-5,
primer_start = 0, primer_end = 1.49999, gen_length_steps = 20,
gen_length_time = 2.5, gen_start = 1.49999 and gen_end = 4 exactly. -/
theorem concrete_window_example :
    computeWindow 120 4 (3/2) 32 =
      Except.ok ⟨0.125, 12, 1.5, 1/100000, 0, 1.49999, 20, 2.5, 1.49999, 4⟩ := by
  have h : primer_sequence_length_steps 120 4 (3/2) = 12 := by
    simp only [primer_sequence_length_steps, seconds_per_step]
    norm_num
  simp only [computeWindow, generation_length_steps, generation_length_time,
    generation_start_time, generation_end_time, primer_end_time,
    primer_end_adjust, primer_sequence_length_time, primer_start_time,
    seconds_per_step, h]
  norm_num

/-- C8: whenever the run succeeds, the returned sequence is exactly the
output of the generation service on the computed generation section, and
the persistence events (MIDI write, plot render) receive that same
sequence unchanged. -/
theorem returns_generated_sequence_unchanged {α : Type} (service : ℚ → ℚ → α)
    (spq : ℚ) (primer : Primer) (qpm : ℚ) (tls : ℤ) (show_plot : Bool)
    (events : List (Event α)) (seq : α)
    (h : generateRun service spq primer qpm tls show_plot = (events, Except.ok seq)) :
    ∃ q w, resolveQpm primer.tempos qpm = Except.ok q ∧
      computeWindow q spq primer.total_time tls = Except.ok w ∧
      seq = service w.generation_start_time w.generation_end_time ∧
      events = [Event.serviceCall w.generation_start_time w.generation_end_time,
                Event.midiWrite seq,
                if show_plot then Event.plotShow seq else Event.plotSave seq] := by
  unfold generateRun at h
  rcases hr : resolveQpm primer.tempos qpm with e | q
  · rw [hr] at h
    simp at h
  · rw [hr] at h
    dsimp only at h
    rcases hw : computeWindow q spq primer.total_time tls with e | w
    · rw [hw] at h
      simp at h
    · rw [hw] at h
      dsimp only at h
      obtain ⟨h1, h2⟩ := Prod.mk.injEq .. ▸ h
      refine ⟨q, w, rfl, hw, ?_, ?_⟩
      · exact (Except.ok.inj h2).symm
      · rw [← h1, Except.ok.inj h2]

/-- Helper: the window computed for an empty primer with qpm = 120,
steps_per_quarter = 4 and total_length_steps = 16. -/
theorem computeWindow_empty_example :
    computeWindow 120 4 0 16 =
      Except.ok ⟨1/8, 0, 0, 0, 0, 0, 16, 2, 0, 2⟩ := by
  simp only [computeWindow, generation_length_steps, generation_length_time,
    generation_start_time, generation_end_time, primer_end_time,
    primer_end_adjust, primer_sequence_length_time, primer_sequence_length_steps,
    primer_start_time, seconds_per_step]
  norm_num

/-- Witness for C8: empty primer, qpm = 120, steps_per_quarter = 4,
total_length_steps = 16, constant service returning 7. -/
theorem returns_generated_sequence_unchanged_witness :
    ∃ q w, Chapter03.resolveQpm ([] : List ℚ) 120 = Except.ok q ∧
      Chapter03.computeWindow q 4 0 16 = Except.ok w ∧
      (7 : ℕ) = (fun _ _ => (7 : ℕ) : ℚ → ℚ → ℕ)
        w.generation_start_time w.generation_end_time ∧
      ([Chapter03.Event.serviceCall 0 2, Chapter03.Event.midiWrite 7,
        Chapter03.Event.plotSave 7] : List (Chapter03.Event ℕ))
        = [Chapter03.Event.serviceCall w.generation_start_time w.generation_end_time,
           Chapter03.Event.midiWrite 7,
           if false then Chapter03.Event.plotShow 7 else Chapter03.Event.plotSave 7] :=
  Chapter03.returns_generated_sequence_unchanged (fun _ _ => (7 : ℕ)) 4 ⟨0, []⟩ 120 16
    false [Chapter03.Event.serviceCall 0 2, Chapter03.Event.midiWrite 7,
      Chapter03.Event.plotSave 7] 7
    (by
      unfold Chapter03.generateRun Chapter03.resolveQpm
      dsimp only
      rw [Chapter03.computeWindow_empty_example]
      dsimp only
      norm_num)

/-- C9: for every input that passes validation the generation window is
non-empty: generation_start_time < generation_end_time. -/
theorem generation_window_nonempty (qpm pt : ℚ) (spq : ℕ) (tls : ℤ)
    (hq : 0 < qpm) (hs : 0 < spq) (hpt : 0 ≤ pt)
    (hlen : primer_sequence_length_steps qpm spq pt < tls) :
    generation_start_time qpm spq pt < generation_end_time qpm spq pt tls := by
  have hsq : (0 : ℚ) < spq := by exact_mod_cast hs
  have hsd := seconds_per_step_pos hq hsq
  have hgls : 0 < generation_length_steps qpm spq pt tls := by
    unfold generation_length_steps
    omega
  have hglt : 0 < generation_length_time qpm spq pt tls := by
    unfold generation_length_time
    exact mul_pos (by exact_mod_cast hgls) hsd
  have hadj : 0 ≤ primer_end_adjust qpm spq pt := by
    unfold primer_end_adjust
    split <;> norm_num
  unfold generation_end_time
  linarith

/-- Witness for C9 at qpm = 120, steps_per_quarter = 4,
primer_total_time = 3/2, total_length_steps = 32. -/
theorem generation_window_nonempty_witness :
    Chapter03.generation_start_time 120 4 (3/2)
      < Chapter03.generation_end_time 120 4 (3/2) 32 := by
  have h := Chapter03.generation_window_nonempty 120 (3/2) 4 32 (by norm_num)
    (by norm_num) (by norm_num)
    (by
      unfold Chapter03.primer_sequence_length_steps Chapter03.seconds_per_step
      norm_num)
  exact_mod_cast h

/-- Helper: rounding a nonnegative quantity up to a whole number of
positive steps covers it and overshoots by less than one step. -/
theorem ceil_step_bounds (pt sd : ℚ) (hsd : 0 < sd) :
    pt ≤ (⌈pt / sd⌉ : ℚ) * sd ∧ (⌈pt / sd⌉ : ℚ) * sd < pt + sd := by
  constructor
  · calc pt = pt / sd * sd := (div_mul_cancel₀ pt (ne_of_gt hsd)).symm
    _ ≤ (⌈pt / sd⌉ : ℚ) * sd :=
      mul_le_mul_of_nonneg_right (Int.le_ceil _) (le_of_lt hsd)
  · calc (⌈pt / sd⌉ : ℚ) * sd < (pt / sd + 1) * sd :=
      mul_lt_mul_of_pos_right (Int.ceil_lt_add_one _) hsd
    _ = pt + sd := by field_simp

/-- C10: the rounded primer window covers the primer and overshoots by
less than one step: primer_total_time <= primer_length_steps *
step_duration < primer_total_time + step_duration. -/
theorem primer_window_covers_primer (qpm pt : ℚ) (spq : ℕ)
    (hpt : 0 ≤ pt) (hsd : 0 < seconds_per_step qpm spq) :
    pt ≤ (primer_sequence_length_steps qpm spq pt : ℚ) * seconds_per_step qpm spq ∧
    (primer_sequence_length_steps qpm spq pt : ℚ) * seconds_per_step qpm spq
      < pt + seconds_per_step qpm spq := by
  unfold primer_sequence_length_steps
  exact ceil_step_bounds pt (seconds_per_step qpm spq) hsd

/-- Witness for C10 at qpm = 120, steps_per_quarter = 4,
primer_total_time = 3/2. -/
theorem primer_window_covers_primer_witness :
    (3/2 : ℚ) ≤ (Chapter03.primer_sequence_length_steps 120 4 (3/2) : ℚ)
        * Chapter03.seconds_per_step 120 4 ∧
    (Chapter03.primer_sequence_length_steps 120 4 (3/2) : ℚ)
        * Chapter03.seconds_per_step 120 4
      < 3/2 + Chapter03.seconds_per_step 120 4 := by
  have h := Chapter03.primer_window_covers_primer 120 (3/2) 4 (by norm_num)
    (by unfold Chapter03.seconds_per_step; norm_num)
  exact_mod_cast h

end Chapter03
